import Mathlib

/-!
Verification of `label_studio/data_manager/functions.py`.

The file embeds the three functions of the source module —
`get_all_columns`, `get_prepared_queryset` and `evaluate_predictions` —
as executable Lean definitions and proves the specified properties
about them.  Python dictionaries are modelled as association lists
with the ordered-insertion semantics of `dict` / `OrderedDict`.
-/

/-! ## Ordered-dictionary model

`OrderedDict.update(items)` inserts each pair in turn: a key already
present keeps its position and has its value replaced, a fresh key is
appended.  Python `dict` construction (e.g. a dict comprehension)
behaves the same way starting from the empty map. -/

/-- Keys of an association list, in order. -/
def dictKeys (m : List (String × String)) : List String :=
  m.map Prod.fst

/-- One ordered-dict insertion: replace in place if the key exists, else append. -/
def odInsert (m : List (String × String)) (kv : String × String) :
    List (String × String) :=
  if (dictKeys m).contains kv.1 then
    m.map (fun p => if p.1 == kv.1 then (p.1, kv.2) else p)
  else
    m ++ [kv]

/-- `m.update(kvs)` for ordered dicts: fold `odInsert` over the new pairs. -/
def odUpdate (m : List (String × String)) (kvs : List (String × String)) :
    List (String × String) :=
  kvs.foldl odInsert m

/-- Modelled from the spec: `settings.DATA_UNDEFINED_NAME` (Django settings,
not under `src/`), the undefined-sentinel field name used for data imported
without a declared key. -/
def DATA_UNDEFINED_NAME : String := "$undefined$"

/-! ## Inputs of `get_all_columns`

The function reads `project.data_types` (the declared schema, an ordered
mapping field name → declared type), `project.summary.all_data_columns`
(the field names inferred from imported data) and
`project.organization.members` user ids (for the `annotators` column
schema).  These three access paths are flattened into one structure. -/

structure Project where
  data_types : List (String × String)
  all_data_columns : List String
  members : List Nat
deriving Repr, DecidableEq

/-- Visibility flags of a column (`visibility_defaults` in the source). -/
structure VisibilityDefaults where
  explore : Bool
  labeling : Bool
deriving Repr, DecidableEq

/-- One column descriptor as built by `get_all_columns`.  Keys that are
absent from a given Python dict literal are modelled as `none`. -/
structure Column where
  id : String
  title : String
  type : String
  target : String
  parent : Option String
  help : Option String
  children : Option (List String)
  schema_items : Option (List Nat)
  visibility_defaults : Option VisibilityDefaults
deriving Repr, DecidableEq

/-- Lines 33–42 of the source: start from an ordered dict, `update` it with
the declared `data_types`, then `update` it with an `Unknown` entry for
every imported column not already declared (a dict comprehension, hence
ordered-dict construction), and finally `pop` the undefined sentinel when
the declared schema is non-empty. -/
def mergedDataTypes (D : List (String × String)) (F : List String) :
    List (String × String) :=
  let dt := odUpdate [] D
  let inferred :=
    odUpdate [] ((F.filter (fun k => !((dictKeys dt).contains k))).map
      (fun k => (k, "Unknown")))
  let dt2 := odUpdate dt inferred
  if 0 < D.length then dt2.filter (fun p => !(p.1 == DATA_UNDEFINED_NAME))
  else dt2

/-- Lines 45–55 of the source: the column built for one merged field.
`D` is the declared `project.data_types`, consulted for the `labeling`
visibility flag. -/
def mkDataColumn (D : List (String × String)) (key data_type : String) :
    Column :=
  { id := key
  , title := if key == DATA_UNDEFINED_NAME then "data" else key
  , type :=
      if ["Image", "Audio", "AudioPlus", "Unknown"].contains data_type
      then data_type else "String"
  , target := "tasks"
  , parent := some "data"
  , help := none
  , children := none
  , schema_items := none
  , visibility_defaults :=
      some ⟨true, (dictKeys D).contains key || key == DATA_UNDEFINED_NAME⟩ }

/-- Lines 69–193 of the source: the fixed system columns, in order. -/
def systemColumns (members : List Nat) : List Column :=
  [ { id := "id", title := "ID", type := "Number", target := "tasks"
    , parent := none, help := some "任务 ID", children := none
    , schema_items := none, visibility_defaults := some ⟨true, false⟩ }
  , { id := "completed_at", title := "已完成", type := "Datetime"
    , target := "tasks", parent := none, help := some "最后注释日期"
    , children := none, schema_items := none
    , visibility_defaults := some ⟨true, false⟩ }
  , { id := "total_annotations", title := "注释", type := "Number"
    , target := "tasks", parent := none, help := some "每个任务的总注释"
    , children := none, schema_items := none
    , visibility_defaults := some ⟨true, true⟩ }
  , { id := "cancelled_annotations", title := "已取消", type := "Number"
    , target := "tasks", parent := none, help := some "完全取消（跳过）注释"
    , children := none, schema_items := none
    , visibility_defaults := some ⟨true, false⟩ }
  , { id := "total_predictions", title := "预测", type := "Number"
    , target := "tasks", parent := none, help := some "每个任务的总预测"
    , children := none, schema_items := none
    , visibility_defaults := some ⟨true, false⟩ }
  , { id := "annotations_results", title := "注释结果", type := "String"
    , target := "tasks", parent := none, help := some "注释结果堆叠在所有注释上"
    , children := none, schema_items := none
    , visibility_defaults := some ⟨false, false⟩ }
  , { id := "predictions_score", title := "预测分数", type := "Number"
    , target := "tasks", parent := none, help := some "所有任务预测的平均预测得分"
    , children := none, schema_items := none
    , visibility_defaults := some ⟨false, false⟩ }
  , { id := "predictions_results", title := "预测结果", type := "String"
    , target := "tasks", parent := none, help := some "在所有预测中叠加的预测结果"
    , children := none, schema_items := none
    , visibility_defaults := some ⟨false, false⟩ }
  , { id := "file_upload", title := "源文件名称", type := "String"
    , target := "tasks", parent := none, help := some "导入步骤中的源文件名"
    , children := none, schema_items := none
    , visibility_defaults := some ⟨false, false⟩ }
  , { id := "created_at", title := "创建于", type := "Datetime"
    , target := "tasks", parent := none, help := some "任务创建时间"
    , children := none, schema_items := none
    , visibility_defaults := some ⟨false, false⟩ }
  , { id := "annotators", title := "注释于", type := "List", target := "tasks"
    , parent := none, help := some "完成任务的所有用户", children := none
    , schema_items := some members, visibility_defaults := some ⟨true, false⟩ }
  ]

/-- Lines 60–67 of the source: the synthetic `data` root column; its
`children` are the ids collected while emitting the data columns. -/
def dataRootColumn (task_data_children : List String) : Column :=
  { id := "data", title := "数据", type := "List", target := "tasks"
  , parent := none, help := none, children := some task_data_children
  , schema_items := none, visibility_defaults := none }

/-- `get_all_columns` (lines 24–197 of the source): emit one data column
per merged field (collecting each id into `task_data_children`), append
the fixed system columns, then append the `data` root column. -/
def get_all_columns (project : Project) : List Column :=
  let data_types := mergedDataTypes project.data_types project.all_data_columns
  let st := data_types.foldl
    (fun acc p =>
      (acc.1 ++ [mkDataColumn project.data_types p.1 p.2], acc.2 ++ [p.1]))
    (([] : List Column), ([] : List String))
  (st.1 ++ systemColumns project.members) ++ [dataRootColumn st.2]

/-- The data columns emitted by `get_all_columns`: one per merged field. -/
def dataColumns (project : Project) : List Column :=
  (mergedDataTypes project.data_types project.all_data_columns).map
    (fun q => mkDataColumn project.data_types q.1 q.2)

/-- The data columns of the output: those carrying `parent = "data"`. -/
def dataColumnIds (project : Project) : List String :=
  ((get_all_columns project).filter
    (fun c => c.parent == some "data")).map Column.id

/-! ## `get_prepared_queryset` (lines 200–221 of the source)

The request carries query parameters (`request.GET`, strings) and a body
(`request.data`).  The body's `selectedItems` value is dynamically typed
in Python — the source checks `isinstance(selected, dict)` — so it is
modelled by a small dynamic value type distinguishing dicts, lists and
anything else. -/

/-- A value stored under a key of a `selectedItems` dict. -/
inductive SelField where
  | fbool (b : Bool)
  | fids (ids : List Int)
  | fother
deriving Repr, DecidableEq

/-- The dynamic value bound to `selectedItems` in the request body. -/
inductive SelVal where
  | sdict (entries : List (String × SelField))
  | slist (ids : List Int)
  | sother
deriving Repr, DecidableEq

/-- An uninterpreted filter tree: `get_prepared_queryset` passes it
through unchanged, so its internal structure is irrelevant here. -/
structure FilterTree where
  payload : String
deriving Repr, DecidableEq

/-- The request body (`request.data`); absent keys are `none`. -/
structure RequestData where
  selectedItems : Option SelVal
  filters : Option FilterTree
  ordering : Option (List String)
deriving Repr, DecidableEq

/-- A request: query parameters and body. -/
structure Request where
  GET : List (String × String)
  data : RequestData
deriving Repr, DecidableEq

/-- First value bound to a query-parameter name, if any. -/
def lookupParam (params : List (String × String)) (key : String) :
    Option String :=
  (params.find? (fun p => p.1 == key)).map Prod.snd

/-- Modelled from the spec: decimal integer parsing of a query-parameter
value (the int conversion performed by `core.utils.common.int_from_request`,
which is not under `src/`).  An optional leading minus sign followed by at
least one decimal digit parses; anything else does not. -/
def parseDecInt (s : String) : Option Int :=
  match s.toList with
  | [] => none
  | '-' :: rest =>
    if rest ≠ [] ∧ rest.all Char.isDigit then
      some (-(Int.ofNat (rest.foldl (fun n c => n * 10 + (c.toNat - 48)) 0)))
    else none
  | cs =>
    if cs.all Char.isDigit then
      some (Int.ofNat (cs.foldl (fun n c => n * 10 + (c.toNat - 48)) 0))
    else none

/-- Modelled from the spec: `core.utils.common.int_from_request` (not under
`src/`).  It reads the named query parameter as an integer with a default.
Per the resolver contract (§4.2, §6: a request either names a persisted
view by a positive integer `view_id` or takes the inline path, and the two
paths are exhaustive), an absent or non-integer value yields the default. -/
def int_from_request (params : List (String × String)) (key : String)
    (dflt : Int) : Int :=
  match lookupParam params key with
  | none => dflt
  | some s => (parseDecInt s).getD dflt

/-- The validated `selectedItems` payload (spec §3: `{all: bool,
excluded|included: list}`; exactly one of the two lists is meaningful). -/
structure SelectedItems where
  all : Bool
  excluded : Option (List Int)
  included : Option (List Int)
deriving Repr, DecidableEq

/-- Modelled from the spec: the shape validation performed when the
selection payload is materialized (`PrepareParams`, a validating model in
`data_manager.prepare_params`, not under `src/`).  A dict is accepted
when its `"all"` key is a boolean and any present `"excluded"` /
`"included"` key is a list of ids; otherwise validation fails. -/
def parseSelectedItems (entries : List (String × SelField)) :
    Option SelectedItems :=
  match (entries.find? (fun p => p.1 == "all")).map Prod.snd with
  | some (SelField.fbool b) =>
    match (entries.find? (fun p => p.1 == "excluded")).map Prod.snd,
          (entries.find? (fun p => p.1 == "included")).map Prod.snd with
    | some (SelField.fids ex), some (SelField.fids inc) =>
      some ⟨b, some ex, some inc⟩
    | some (SelField.fids ex), none => some ⟨b, some ex, none⟩
    | none, some (SelField.fids inc) => some ⟨b, none, some inc⟩
    | none, none => some ⟨b, none, none⟩
    | _, _ => none
  | _ => none

/-- The materialized selection expression (`PrepareParams`).  The inline
path also forwards the raw request body (`data=request.data` in the
source); the view path does not touch the body. -/
structure PrepareParams where
  project : Nat
  selectedItems : SelectedItems
  filters : Option FilterTree
  ordering : List String
  data : Option RequestData
deriving Repr, DecidableEq

/-- A persisted view (`data_manager.models.View`): its primary key, the
primary key of the project owning it, and its stored selection state. -/
structure View where
  pk : Int
  project_pk : Nat
  stored_filters : Option FilterTree
  stored_ordering : List String
  stored_selected_items : SelectedItems
deriving Repr, DecidableEq

/-- Modelled from the spec: `View.get_prepare_tasks_params`
(`data_manager.models`, not under `src/`).  Per §4.2 step 1 and §6, it
builds the selection expression from the view's stored filters and
ordering, merging the view's own selected-items overlay when
`add_selected_items` is true. -/
def get_prepare_tasks_params (v : View) (add_selected_items : Bool) :
    PrepareParams :=
  { project := v.project_pk
  , selectedItems :=
      if add_selected_items then v.stored_selected_items
      else ⟨true, some [], none⟩
  , filters := v.stored_filters
  , ordering := v.stored_ordering
  , data := none }

/-- The errors `get_prepared_queryset` can raise: `Http404` from
`get_object_or_404`, the two `DataManagerException`s, and the
spec-modelled shape-validation failure of `PrepareParams`. -/
inductive DMError where
  | notFound
  | viewProjectMismatch
  | selectedItemsNotDict
  | invalidSelectedItemsShape
deriving Repr, DecidableEq

/-- The first positional argument handed to the DRF shortcut at line 204
of the source: the request object, where a queryset is expected.  The
`viewQuerySet` alternative models what a genuine View queryset argument
would be. -/
inductive QuerysetArg where
  | requestObject (r : Request)
  | viewQuerySet (vs : List View)
deriving Repr, DecidableEq

/-- `rest_framework.generics.get_object_or_404(queryset, **filter_kwargs)`:
it delegates to Django's shortcut, which demands that its first argument
be a Model, Manager or QuerySet (something with a `get` attribute) and
raises `ValueError` otherwise; DRF converts `TypeError` / `ValueError` /
`ValidationError` to `Http404`.  A request object has no `get` attribute,
so calling it with the request as the queryset — as the source does at
line 204, `get_object_or_404(request, View, pk=view_id)`, where the stray
`View` class lands among the ignored filter args — yields `Http404`
unconditionally, before any lookup.  A genuine View queryset would
perform the keyed lookup. -/
def get_object_or_404 (queryset : QuerysetArg) (pk : Int) :
    Except DMError View :=
  match queryset with
  | QuerysetArg.requestObject _ => Except.error DMError.notFound
  | QuerysetArg.viewQuerySet vs =>
    match vs.find? (fun v => v.pk == pk) with
    | none => Except.error DMError.notFound
    | some v => Except.ok v

/-- `get_prepared_queryset` (lines 200–221).  `_views` is the persisted
view store (the `View` model's table); the source's `get_object_or_404`
call never actually reaches it, because the request object is passed
where DRF expects the queryset, so the view branch raises `Http404` for
every positive `view_id` and the project-mismatch check and
`get_prepare_tasks_params` call (lines 205–207) are unreachable.
`project_pk` is the target project's primary key
(`project.pk = project.id`); the result is the materialized
`PrepareParams` handed to `Task.prepared.all`. -/
def get_prepared_queryset (_views : List View) (req : Request)
    (project_pk : Nat) : Except DMError PrepareParams :=
  let view_id := int_from_request req.GET "view_id" 0
  if 0 < view_id then
    match get_object_or_404 (QuerysetArg.requestObject req) view_id with
    | Except.error e => Except.error e
    | Except.ok view =>
      if view.project_pk ≠ project_pk then
        Except.error DMError.viewProjectMismatch
      else Except.ok (get_prepare_tasks_params view true)
  else
    let selected := (req.data.selectedItems).getD
      (SelVal.sdict [("all", SelField.fbool true), ("excluded", SelField.fids [])])
    match selected with
    | SelVal.sdict entries =>
      match parseSelectedItems entries with
      | none => Except.error DMError.invalidSelectedItemsShape
      | some si =>
        Except.ok
          { project := project_pk
          , selectedItems := si
          , filters := req.data.filters
          , ordering := (req.data.ordering).getD []
          , data := some req.data }
    | _ => Except.error DMError.selectedItemsNotDict

/-! ## `evaluate_predictions` (lines 224–234 of the source) -/

/-- A registered scoring collaborator (`MLBackend`); `fails` says whether
its dispatch call reports a failure. -/
structure MLBackend where
  id : Nat
  fails : Bool
deriving Repr, DecidableEq

/-- The project a task belongs to, with its registered ML backends. -/
structure MLProject where
  pk : Nat
  ml_backends : List MLBackend
deriving Repr, DecidableEq

/-- A task (`tasks.models.Task`): its id and owning project. -/
structure LSTask where
  id : Nat
  project : MLProject
deriving Repr, DecidableEq

/-- The observable effect of one collaborator dispatch. -/
structure DispatchEvent where
  backend : Nat
  task_ids : List Nat
  ok : Bool
deriving Repr, DecidableEq

/-- Modelled from the spec: `MLBackend.predict_many_tasks` (`ml.models`,
not under `src/`).  It dispatches the full record set to the collaborator
fire-and-forget; per the spec's propagation policy (§7) a collaborator
failure is caught and reported — recorded here in the `ok` flag — and is
never raised to the caller. -/
def predict_many_tasks (mb : MLBackend) (tasks : List LSTask) : DispatchEvent :=
  ⟨mb.id, tasks.map LSTask.id, !mb.fails⟩

/-- `evaluate_predictions` (lines 224–234): return immediately on an
empty queryset, otherwise take the project of the first task and call
`predict_many_tasks` for each of that project's ML backends in turn.
The result is the trace of dispatch events. -/
def evaluate_predictions (tasks : List LSTask) : List DispatchEvent :=
  if tasks.isEmpty then []
  else
    match tasks.head? with
    | none => []
    | some t => t.project.ml_backends.map (fun mb => predict_many_tasks mb tasks)

/-! ## Structural lemmas about the ordered-dictionary model -/

lemma dictKeys_append (m₁ m₂ : List (String × String)) :
    dictKeys (m₁ ++ m₂) = dictKeys m₁ ++ dictKeys m₂ := by
  simp [dictKeys]

lemma odInsert_fresh (m : List (String × String)) (kv : String × String)
    (h : ¬ kv.1 ∈ dictKeys m) : odInsert m kv = m ++ [kv] := by
  unfold odInsert
  rw [if_neg]
  simpa using h

lemma odUpdate_fresh (kvs m : List (String × String))
    (hd : (kvs.map Prod.fst).Nodup)
    (hfresh : ∀ k ∈ kvs.map Prod.fst, ¬ k ∈ dictKeys m) :
    odUpdate m kvs = m ++ kvs := by
  induction kvs generalizing m with
  | nil => simp [odUpdate]
  | cons kv rest ih =>
    have h1 : ¬ kv.1 ∈ dictKeys m := hfresh kv.1 (by simp)
    rw [List.map_cons, List.nodup_cons] at hd
    have hnodup := hd
    have step : odUpdate m (kv :: rest) = odUpdate (odInsert m kv) rest := rfl
    rw [step, odInsert_fresh m kv h1, ih (m ++ [kv]) hnodup.2]
    · simp
    · intro k hk
      rw [dictKeys_append]
      rw [List.mem_append]
      rintro (hkm | hkv)
      · exact hfresh k (by simp [hk]) hkm
      · have : k = kv.1 := by simpa [dictKeys] using hkv
        exact hnodup.1 (this ▸ hk)

lemma odInsert_value (v : String) (m : List (String × String))
    (kv : String × String) (S : List String)
    (hm : ∀ q ∈ m, ¬ q.1 ∈ S → q.2 = v) (hv : kv.2 = v) :
    ∀ q ∈ odInsert m kv, ¬ q.1 ∈ S → q.2 = v := by
  intro q hq hqS
  unfold odInsert at hq
  by_cases hc : (dictKeys m).contains kv.1
  · rw [if_pos hc] at hq
    obtain ⟨p, hp, hpq⟩ := List.mem_map.mp hq
    by_cases hpk : (p.1 == kv.1) = true
    · rw [if_pos hpk] at hpq
      rw [← hpq]
      exact hv
    · rw [if_neg hpk] at hpq
      exact hm q (hpq ▸ hp) hqS
  · rw [if_neg hc] at hq
    rcases List.mem_append.mp hq with h | h
    · exact hm q h hqS
    · have : q = kv := by simpa using h
      exact this ▸ hv

lemma odUpdate_value (v : String) (kvs m : List (String × String))
    (S : List String) (hkvs : ∀ kv ∈ kvs, kv.2 = v)
    (hm : ∀ q ∈ m, ¬ q.1 ∈ S → q.2 = v) :
    ∀ q ∈ odUpdate m kvs, ¬ q.1 ∈ S → q.2 = v := by
  induction kvs generalizing m with
  | nil => simpa [odUpdate] using hm
  | cons kv rest ih =>
    have step : odUpdate m (kv :: rest) = odUpdate (odInsert m kv) rest := rfl
    rw [step]
    exact ih (odInsert m kv) (fun p hp => hkvs p (List.mem_cons_of_mem kv hp))
      (odInsert_value v m kv S hm (hkvs kv (List.mem_cons_self kv rest)))

lemma dictKeys_odInsert_subset (m : List (String × String))
    (kv : String × String) :
    ∀ k ∈ dictKeys (odInsert m kv), k ∈ dictKeys m ∨ k = kv.1 := by
  intro k hk
  unfold odInsert at hk
  by_cases hc : (dictKeys m).contains kv.1
  · rw [if_pos hc] at hk
    unfold dictKeys at hk
    rw [List.map_map] at hk
    obtain ⟨p, hp, hpk⟩ := List.mem_map.mp hk
    left
    have hfst : p.1 = k := by
      by_cases hpkv : (p.1 == kv.1) = true <;> simpa [Function.comp, hpkv] using hpk
    exact hfst ▸ List.mem_map_of_mem Prod.fst hp
  · rw [if_neg hc] at hk
    rw [dictKeys_append] at hk
    rcases List.mem_append.mp hk with h | h
    · exact Or.inl h
    · right
      simpa [dictKeys] using h

lemma dictKeys_odUpdate_subset (kvs m : List (String × String)) :
    ∀ k ∈ dictKeys (odUpdate m kvs),
      k ∈ dictKeys m ∨ k ∈ kvs.map Prod.fst := by
  induction kvs generalizing m with
  | nil => exact fun k hk => Or.inl (by simpa [odUpdate] using hk)
  | cons kv rest ih =>
    intro k hk
    have step : odUpdate m (kv :: rest) = odUpdate (odInsert m kv) rest := rfl
    rw [step] at hk
    rcases ih (odInsert m kv) k hk with h | h
    · rcases dictKeys_odInsert_subset m kv k h with h' | h'
      · exact Or.inl h'
      · exact Or.inr (by simp [h'])
    · exact Or.inr (by simp [h])

lemma mergedDataTypes_eq (D : List (String × String)) (F : List String)
    (hD : (dictKeys D).Nodup) (hF : F.Nodup) :
    mergedDataTypes D F =
      if 0 < D.length then
        (D ++ (F.filter (fun k => !((dictKeys D).contains k))).map
          (fun k => (k, "Unknown"))).filter
          (fun p => !(p.1 == DATA_UNDEFINED_NAME))
      else
        D ++ (F.filter (fun k => !((dictKeys D).contains k))).map
          (fun k => (k, "Unknown")) := by
  have h1 : odUpdate [] D = D := by
    have := odUpdate_fresh D [] (by simpa [dictKeys] using hD)
      (by intro k _hk; simp [dictKeys])
    simpa using this
  have hkeys : ((F.filter (fun k => !((dictKeys D).contains k))).map
      (fun k => ((k, "Unknown") : String × String))).map Prod.fst =
      F.filter (fun k => !((dictKeys D).contains k)) := by
    simp [Function.comp_def]
  have hfreshD : ∀ k ∈ ((F.filter (fun k => !((dictKeys D).contains k))).map
      (fun k => ((k, "Unknown") : String × String))).map Prod.fst,
      ¬ k ∈ dictKeys D := by
    rw [hkeys]
    intro k hk
    have := (List.mem_filter.mp hk).2
    simpa using this
  have hnd : (((F.filter (fun k => !((dictKeys D).contains k))).map
      (fun k => ((k, "Unknown") : String × String))).map Prod.fst).Nodup := by
    rw [hkeys]
    exact hF.filter _
  have h2 : odUpdate [] ((F.filter (fun k => !((dictKeys D).contains k))).map
      (fun k => ((k, "Unknown") : String × String))) =
      (F.filter (fun k => !((dictKeys D).contains k))).map
        (fun k => ((k, "Unknown") : String × String)) := by
    have := odUpdate_fresh ((F.filter (fun k => !((dictKeys D).contains k))).map
      (fun k => ((k, "Unknown") : String × String))) [] hnd
      (by intro k _hk; simp [dictKeys])
    simpa using this
  have h3 : odUpdate D ((F.filter (fun k => !((dictKeys D).contains k))).map
      (fun k => ((k, "Unknown") : String × String))) =
      D ++ (F.filter (fun k => !((dictKeys D).contains k))).map
        (fun k => ((k, "Unknown") : String × String)) :=
    odUpdate_fresh _ D hnd hfreshD
  simp only [mergedDataTypes, h1, h2, h3]

lemma foldl_build (D : List (String × String))
    (md : List (String × String)) (cs : List Column) (ks : List String) :
    md.foldl (fun acc p =>
        (acc.1 ++ [mkDataColumn D p.1 p.2], acc.2 ++ [p.1])) (cs, ks) =
      (cs ++ md.map (fun p => mkDataColumn D p.1 p.2),
       ks ++ md.map Prod.fst) := by
  induction md generalizing cs ks with
  | nil => simp
  | cons p md ih =>
    rw [List.foldl_cons, ih]
    simp

lemma get_all_columns_eq (p : Project) :
    get_all_columns p =
      dataColumns p ++ systemColumns p.members ++
        [dataRootColumn
          ((mergedDataTypes p.data_types p.all_data_columns).map Prod.fst)] := by
  simp only [get_all_columns, dataColumns]
  rw [foldl_build]
  simp

lemma dataColumnIds_eq (p : Project) :
    dataColumnIds p =
      (mergedDataTypes p.data_types p.all_data_columns).map Prod.fst := by
  unfold dataColumnIds
  rw [get_all_columns_eq, List.filter_append, List.filter_append]
  have hsys : (systemColumns p.members).filter
      (fun c => c.parent == some "data") = [] := by
    simp [systemColumns]
  have hroot : List.filter (fun c => c.parent == some "data")
      [dataRootColumn
        ((mergedDataTypes p.data_types p.all_data_columns).map Prod.fst)] = [] := by
    simp [dataRootColumn]
  have hdata : (dataColumns p).filter (fun c => c.parent == some "data") =
      dataColumns p := by
    rw [List.filter_eq_self]
    intro c hc
    obtain ⟨q, _hq, rfl⟩ := List.mem_map.mp hc
    simp [mkDataColumn]
  rw [hsys, hroot, hdata]
  simp [dataColumns, mkDataColumn]

lemma dataColumns_map_id (p : Project) :
    (dataColumns p).map Column.id =
      (mergedDataTypes p.data_types p.all_data_columns).map Prod.fst := by
  simp [dataColumns, mkDataColumn]

lemma map_fst_filter_key (s : String) (l : List (String × String)) :
    (l.filter (fun p => !(p.1 == s))).map Prod.fst =
      (l.map Prod.fst).filter (fun k => !(k == s)) := by
  induction l with
  | nil => simp
  | cons p l ih =>
    by_cases h : (p.1 == s) = true <;> simp [h, ih]

lemma merged_undeclared_unknown (D : List (String × String)) (F : List String) :
    ∀ q ∈ mergedDataTypes D F, ¬ q.1 ∈ dictKeys D → q.2 = "Unknown" := by
  intro q hq hqD
  have hvals : ∀ kv ∈ odUpdate []
      ((F.filter (fun k => !((dictKeys (odUpdate [] D)).contains k))).map
        (fun k => ((k, "Unknown") : String × String))), kv.2 = "Unknown" := by
    intro kv hkv
    refine odUpdate_value "Unknown" _ [] [] ?_ ?_ kv hkv (by simp)
    · intro r hr
      obtain ⟨x, _hx, rfl⟩ := List.mem_map.mp hr
      rfl
    · intro r hr
      simp at hr
  have hdt2 : ∀ r ∈ odUpdate (odUpdate [] D)
      (odUpdate []
        ((F.filter (fun k => !((dictKeys (odUpdate [] D)).contains k))).map
          (fun k => ((k, "Unknown") : String × String)))),
      ¬ r.1 ∈ dictKeys (odUpdate [] D) → r.2 = "Unknown" := by
    refine odUpdate_value "Unknown" _ _ _ hvals ?_
    intro r hr hrk
    exact absurd (List.mem_map_of_mem Prod.fst hr) hrk
  have hq2 : q ∈ odUpdate (odUpdate [] D)
      (odUpdate []
        ((F.filter (fun k => !((dictKeys (odUpdate [] D)).contains k))).map
          (fun k => ((k, "Unknown") : String × String)))) := by
    simp only [mergedDataTypes] at hq
    split at hq
    · exact List.mem_of_mem_filter hq
    · exact hq
  refine hdt2 q hq2 ?_
  intro hk
  rcases dictKeys_odUpdate_subset D [] q.1 hk with h | h
  · simp [dictKeys] at h
  · exact hqD h

/-- C7: the column list returned by `get_all_columns` is all data columns
first (one per merged field), then the fixed system columns in their fixed
order (id, completed_at, total_annotations, cancelled_annotations,
total_predictions, annotations_results, predictions_score,
predictions_results, file_upload, created_at, annotators), then exactly one
synthetic grouping column of type `List` whose children list every
data-column id produced earlier, in the same order. -/
theorem C7_column_order (p : Project) :
    get_all_columns p =
      dataColumns p ++ systemColumns p.members ++
        [dataRootColumn ((dataColumns p).map Column.id)] ∧
    (systemColumns p.members).map Column.id =
      ["id", "completed_at", "total_annotations", "cancelled_annotations",
       "total_predictions", "annotations_results", "predictions_score",
       "predictions_results", "file_upload", "created_at", "annotators"] ∧
    (dataRootColumn ((dataColumns p).map Column.id)).type = "List" ∧
    (dataRootColumn ((dataColumns p).map Column.id)).children =
      some ((dataColumns p).map Column.id) ∧
    (dataColumns p).map Column.id = dataColumnIds p := by
  refine ⟨?_, by simp [systemColumns], rfl, rfl, ?_⟩
  · rw [get_all_columns_eq, dataColumns_map_id]
  · rw [dataColumnIds_eq, dataColumns_map_id]

/-- C9: every data column's title equals its field id, except the
undefined-sentinel field whose column keeps the sentinel id but receives
the literal title "data"; that string is also the id of the synthetic
grouping column (the last column of the output) and the parent reference
carried by every data column. -/
theorem C9_titles (p : Project) :
    (∀ c ∈ dataColumns p,
      c.parent = some "data" ∧
      c.title = (if c.id == DATA_UNDEFINED_NAME then "data" else c.id)) ∧
    (get_all_columns p).getLast? =
      some (dataRootColumn ((dataColumns p).map Column.id)) ∧
    (dataRootColumn ((dataColumns p).map Column.id)).id = "data" := by
  refine ⟨?_, ?_, rfl⟩
  · intro c hc
    obtain ⟨q, _hq, rfl⟩ := List.mem_map.mp hc
    exact ⟨rfl, by simp [mkDataColumn]⟩
  · rw [get_all_columns_eq, dataColumns_map_id, List.getLast?_concat]

/-- C9 witness: in the scenario with one declared image field, the emitted
image column carries parent "data" and title equal to its id. -/
theorem C9_titles_witness :
    (mkDataColumn [("image", "Image")] "image" "Image").parent = some "data" ∧
    (mkDataColumn [("image", "Image")] "image" "Image").title =
      (if (mkDataColumn [("image", "Image")] "image" "Image").id ==
          DATA_UNDEFINED_NAME then "data"
       else (mkDataColumn [("image", "Image")] "image" "Image").id) :=
  (C9_titles ⟨[("image", "Image")], [], []⟩).1
    (mkDataColumn [("image", "Image")] "image" "Image") (by decide)

/-- C1 counterexample: with an empty declared schema and no inferred
fields the undefined-sentinel id does not appear among the data-column
ids, even though the declared schema is empty — refuting the claimed
equivalence "the sentinel id is present iff the declared schema is
empty". -/
theorem C1_counterexample :
    (⟨[], [], []⟩ : Project).data_types = [] ∧
    ¬ DATA_UNDEFINED_NAME ∈ dataColumnIds ⟨[], [], []⟩ := by
  exact ⟨rfl, by decide⟩

/-- C1 amended: the merged data-column id list equals the declared keys
followed by the inferred-only fields in discovery order, with the
undefined-sentinel name removed whenever the declared map is non-empty;
consequently the sentinel id appears in the output iff the declared
schema is empty AND the sentinel occurs among the inferred fields. -/
theorem C1_amended (D : List (String × String)) (F : List String)
    (m : List Nat) (hD : (dictKeys D).Nodup) (hF : F.Nodup) :
    dataColumnIds ⟨D, F, m⟩ =
      (if 0 < D.length then
        (dictKeys D ++ F.filter (fun k => !((dictKeys D).contains k))).filter
          (fun k => !(k == DATA_UNDEFINED_NAME))
      else dictKeys D ++ F.filter (fun k => !((dictKeys D).contains k))) ∧
    (DATA_UNDEFINED_NAME ∈ dataColumnIds ⟨D, F, m⟩ ↔
      D = [] ∧ DATA_UNDEFINED_NAME ∈ F) := by
  have hmain : dataColumnIds ⟨D, F, m⟩ =
      (if 0 < D.length then
        (dictKeys D ++ F.filter (fun k => !((dictKeys D).contains k))).filter
          (fun k => !(k == DATA_UNDEFINED_NAME))
      else dictKeys D ++ F.filter (fun k => !((dictKeys D).contains k))) := by
    rw [dataColumnIds_eq, mergedDataTypes_eq D F hD hF]
    by_cases hlen : 0 < D.length
    · rw [if_pos hlen, if_pos hlen, map_fst_filter_key]
      congr 1
      simp [dictKeys, Function.comp_def]
    · rw [if_neg hlen, if_neg hlen]
      simp [dictKeys, Function.comp_def]
  refine ⟨hmain, ?_⟩
  rw [hmain]
  by_cases hlen : 0 < D.length
  · rw [if_pos hlen]
    constructor
    · intro hmem
      have := (List.mem_filter.mp hmem).2
      simp at this
    · rintro ⟨hD0, _⟩
      subst hD0
      simp at hlen
  · rw [if_neg hlen]
    have hD0 : D = [] := by
      cases D with
      | nil => rfl
      | cons d ds => simp at hlen
    subst hD0
    simp [dictKeys]

/-- C1 amended witness: one declared image field and one inferred caption
field give data-column ids ["image", "caption"], with no sentinel. -/
theorem C1_amended_witness :
    (dictKeys [("image", "Image")]).Nodup ∧ (["caption"] : List String).Nodup ∧
    (dataColumnIds ⟨[("image", "Image")], ["caption"], []⟩ =
      (if 0 < ([("image", "Image")] : List (String × String)).length then
        (dictKeys [("image", "Image")] ++
          (["caption"] : List String).filter
            (fun k => !((dictKeys [("image", "Image")]).contains k))).filter
          (fun k => !(k == DATA_UNDEFINED_NAME))
      else dictKeys [("image", "Image")] ++
        (["caption"] : List String).filter
          (fun k => !((dictKeys [("image", "Image")]).contains k))) ∧
    (DATA_UNDEFINED_NAME ∈ dataColumnIds ⟨[("image", "Image")], ["caption"], []⟩ ↔
      ([("image", "Image")] : List (String × String)) = [] ∧
        DATA_UNDEFINED_NAME ∈ (["caption"] : List String))) :=
  ⟨by decide, by decide,
    C1_amended [("image", "Image")] ["caption"] [] (by decide) (by decide)⟩

/-- C2 counterexample: in the spec's own scenario (declared schema
maps image to Image; inferred fields are image and caption) the caption
column is emitted with type "Unknown", not "String" as claimed — an
inferred-only field receives the merged type Unknown, which survives the
narrowing test. -/
theorem C2_counterexample :
    ((get_all_columns ⟨[("image", "Image")], ["image", "caption"], []⟩).find?
      (fun c => c.id == "caption")).map Column.type = some "Unknown" ∧
    ¬ ((get_all_columns ⟨[("image", "Image")], ["image", "caption"], []⟩).find?
      (fun c => c.id == "caption")).map Column.type = some "String" := by
  exact ⟨by decide, by decide⟩

/-- C2 amended: each merged field's column has type equal to the merged
type when that type is one of Image, Audio, AudioPlus, Unknown, else
String; an undeclared (inferred-only) merged field always carries merged
type Unknown — hence its column type is Unknown, never String; labeling
visibility is true iff the field is declared or is the undefined-sentinel
name; explore visibility is always true. -/
theorem C2_amended (D : List (String × String)) (F : List String)
    (m : List Nat) :
    ∀ k t, (k, t) ∈ mergedDataTypes D F →
      mkDataColumn D k t ∈ get_all_columns ⟨D, F, m⟩ ∧
      (mkDataColumn D k t).type =
        (if ["Image", "Audio", "AudioPlus", "Unknown"].contains t then t
         else "String") ∧
      (mkDataColumn D k t).visibility_defaults =
        some ⟨true, (dictKeys D).contains k || k == DATA_UNDEFINED_NAME⟩ ∧
      (¬ k ∈ dictKeys D → t = "Unknown") := by
  intro k t hkt
  refine ⟨?_, rfl, rfl, ?_⟩
  · rw [get_all_columns_eq]
    refine List.mem_append.mpr (Or.inl (List.mem_append.mpr (Or.inl ?_)))
    exact List.mem_map.mpr ⟨(k, t), hkt, rfl⟩
  · intro hk
    exact merged_undeclared_unknown D F (k, t) hkt hk

/-- C2 amended witness: the caption column of the spec scenario is in
the output with type Unknown, labeling-invisible and explore-visible. -/
theorem C2_amended_witness :
    ("caption", "Unknown") ∈
      mergedDataTypes [("image", "Image")] ["image", "caption"] ∧
    (mkDataColumn [("image", "Image")] "caption" "Unknown" ∈
        get_all_columns ⟨[("image", "Image")], ["image", "caption"], []⟩ ∧
      (mkDataColumn [("image", "Image")] "caption" "Unknown").type =
        (if ["Image", "Audio", "AudioPlus", "Unknown"].contains "Unknown"
         then "Unknown" else "String") ∧
      (mkDataColumn [("image", "Image")] "caption" "Unknown").visibility_defaults =
        some ⟨true, (dictKeys [("image", "Image")]).contains "caption" ||
          "caption" == DATA_UNDEFINED_NAME⟩ ∧
      (¬ "caption" ∈ dictKeys [("image", "Image")] → "Unknown" = "Unknown")) :=
  ⟨by decide,
    C2_amended [("image", "Image")] ["image", "caption"] [] "caption" "Unknown"
      (by decide)⟩

lemma mkDataColumn_type (D : List (String × String)) (k t : String) :
    (mkDataColumn D k t).type =
      if ["Image", "Audio", "AudioPlus", "Unknown"].contains t then t
      else "String" := rfl

/-- C8: schema derivation is total — for every declared schema and
inferred field set it returns a full descriptor list (one column per
merged field plus the eleven system columns and the root column), every
emitted type is drawn from the closed type vocabulary, a declared type
outside the four recognized media types degrades to String, and an
undeclared merged field degrades to Unknown rather than failing. -/
theorem C8_total_and_degrades (p : Project) :
    (get_all_columns p).length =
      (mergedDataTypes p.data_types p.all_data_columns).length + 12 ∧
    (∀ c ∈ get_all_columns p,
      c.type ∈ ["Image", "Audio", "AudioPlus", "Unknown", "String",
                 "Number", "Datetime", "List"]) ∧
    (∀ k t, ¬ t ∈ ["Image", "Audio", "AudioPlus", "Unknown"] →
      (mkDataColumn p.data_types k t).type = "String") ∧
    (∀ q ∈ mergedDataTypes p.data_types p.all_data_columns,
      ¬ q.1 ∈ dictKeys p.data_types → q.2 = "Unknown") := by
  refine ⟨?_, ?_, ?_, merged_undeclared_unknown _ _⟩
  · rw [get_all_columns_eq]
    simp [dataColumns, systemColumns]
  · intro c hc
    rw [get_all_columns_eq] at hc
    rcases List.mem_append.mp hc with h1 | h1
    · rcases List.mem_append.mp h1 with h2 | h2
      · obtain ⟨q, _hq, rfl⟩ := List.mem_map.mp h2
        rw [mkDataColumn_type]
        by_cases ht : (["Image", "Audio", "AudioPlus", "Unknown"].contains q.2) = true
        · rw [if_pos ht]
          have hq4 : q.2 = "Image" ∨ q.2 = "Audio" ∨ q.2 = "AudioPlus" ∨
              q.2 = "Unknown" := by simpa using ht
          rcases hq4 with h | h | h | h <;> simp [h]
        · rw [if_neg ht]
          simp
      · have hsel : c.type ∈ (systemColumns p.members).map Column.type :=
          List.mem_map_of_mem Column.type h2
        have hts : (systemColumns p.members).map Column.type =
            ["Number", "Datetime", "Number", "Number", "Number", "String",
             "Number", "String", "String", "Datetime", "List"] := rfl
        rw [hts] at hsel
        have hsel' : c.type = "Number" ∨ c.type = "Datetime" ∨
            c.type = "Number" ∨ c.type = "String" ∨ c.type = "Number" ∨
            c.type = "String" ∨ c.type = "Datetime" ∨ c.type = "List" := by
          simpa using hsel
        rcases hsel' with h | h | h | h | h | h | h | h <;> simp [h]
    · have : c = dataRootColumn
          ((mergedDataTypes p.data_types p.all_data_columns).map Prod.fst) := by
        simpa using h1
      subst this
      simp [dataRootColumn]
  · intro k t ht
    rw [mkDataColumn_type, if_neg]
    simpa using ht

/-- C8 witness: a declared type outside the recognized set degrades to
String, and the function yields the full column list on a small input. -/
theorem C8_total_and_degrades_witness :
    ¬ "Text" ∈ ["Image", "Audio", "AudioPlus", "Unknown"] ∧
    (mkDataColumn [("txt", "Text")] "txt" "Text").type = "String" :=
  ⟨by decide,
    (C8_total_and_degrades ⟨[("txt", "Text")], [], []⟩).2.2.1 "txt" "Text"
      (by decide)⟩

/-- C3: the claim describes the intended view path (fetch the persisted
view, not-found only when it is absent, scope-mismatch error when the
view belongs to another project, otherwise parameters from the view's
stored state), but the code has a slip: line 204 passes the request
object as the queryset argument of rest_framework's get_object_or_404,
so the call raises Http404 for every positive view_id, and the mismatch
error and view-sourced parameters of lines 205-207 are unreachable — the
resolver returns the not-found error regardless of the view store, even
for an existing view whose scope matches the request. -/
theorem C3_always_http404 (views : List View) (req : Request) (ppk : Nat)
    (vid : Int) (hvid : int_from_request req.GET "view_id" 0 = vid)
    (hpos : 0 < vid) :
    get_prepared_queryset views req ppk = Except.error DMError.notFound := by
  simp only [get_prepared_queryset, hvid, if_pos hpos]
  rfl

/-- C3 witness (the failing input): view 7 exists in the store and is
scoped to the requested project 3, yet the resolver still returns the
not-found error instead of the view's stored parameters. -/
theorem C3_always_http404_witness :
    get_prepared_queryset [⟨7, 3, none, [], ⟨true, some [], none⟩⟩]
      ⟨[("view_id", "7")], ⟨none, none, none⟩⟩ 3 =
      Except.error DMError.notFound :=
  C3_always_http404 [⟨7, 3, none, [], ⟨true, some [], none⟩⟩]
    ⟨[("view_id", "7")], ⟨none, none, none⟩⟩ 3 7 (by decide) (by decide)

/-- C4: on the inline path (no positive view_id), selectedItems defaults
to all=true with an empty exclusion list when absent; a present
selectedItems that is not a dict (in particular a list) raises the
selected-items validation error; a dict that fails the
all-bool/excluded-included-list shape validation raises the shape
validation error; filters default to none and ordering to the empty
sequence, both read directly from the request body. -/
theorem C4_inline_path (views : List View) (req : Request) (ppk : Nat)
    (h : int_from_request req.GET "view_id" 0 ≤ 0) :
    (req.data.selectedItems = none →
      get_prepared_queryset views req ppk =
        Except.ok ⟨ppk, ⟨true, some [], none⟩, req.data.filters,
          (req.data.ordering).getD [], some req.data⟩) ∧
    (∀ ids, req.data.selectedItems = some (SelVal.slist ids) →
      get_prepared_queryset views req ppk =
        Except.error DMError.selectedItemsNotDict) ∧
    (req.data.selectedItems = some SelVal.sother →
      get_prepared_queryset views req ppk =
        Except.error DMError.selectedItemsNotDict) ∧
    (∀ entries, req.data.selectedItems = some (SelVal.sdict entries) →
      (parseSelectedItems entries = none →
        get_prepared_queryset views req ppk =
          Except.error DMError.invalidSelectedItemsShape) ∧
      (∀ si, parseSelectedItems entries = some si →
        get_prepared_queryset views req ppk =
          Except.ok ⟨ppk, si, req.data.filters,
            (req.data.ordering).getD [], some req.data⟩)) := by
  have hneg : ¬ 0 < int_from_request req.GET "view_id" 0 := by omega
  refine ⟨?_, ?_, ?_, ?_⟩
  · intro h0
    simp only [get_prepared_queryset, if_neg hneg, h0]
    rfl
  · intro ids h0
    simp only [get_prepared_queryset, if_neg hneg, h0]
    rfl
  · intro h0
    simp only [get_prepared_queryset, if_neg hneg, h0]
    rfl
  · intro entries h0
    constructor
    · intro hparse
      simp only [get_prepared_queryset, if_neg hneg, h0, Option.getD_some,
        hparse]
    · intro si hparse
      simp only [get_prepared_queryset, if_neg hneg, h0, Option.getD_some,
        hparse]

/-- C4 witness: a selectedItems given as a list raises the validation
error on the inline path. -/
theorem C4_inline_path_witness :
    get_prepared_queryset []
      ⟨[], ⟨some (SelVal.slist [1, 2]), none, none⟩⟩ 5 =
      Except.error DMError.selectedItemsNotDict :=
  (C4_inline_path [] ⟨[], ⟨some (SelVal.slist [1, 2]), none, none⟩⟩ 5
      (by decide)).2.1 [1, 2] rfl

/-- C10: when the view_id query parameter is absent, non-numeric, zero
or negative, the resolver silently takes the inline path: the result
does not depend on the view store at all, and neither the not-found nor
the project/view mismatch error can be raised. -/
theorem C10_malformed_view_id (views₁ views₂ : List View) (req : Request)
    (ppk : Nat)
    (h : lookupParam req.GET "view_id" = none ∨
      ∃ s, lookupParam req.GET "view_id" = some s ∧ (parseDecInt s).getD 0 ≤ 0) :
    get_prepared_queryset views₁ req ppk =
      get_prepared_queryset views₂ req ppk ∧
    get_prepared_queryset views₁ req ppk ≠ Except.error DMError.notFound ∧
    get_prepared_queryset views₁ req ppk ≠
      Except.error DMError.viewProjectMismatch := by
  have hle : int_from_request req.GET "view_id" 0 ≤ 0 := by
    rcases h with h | ⟨s, hs, hsle⟩
    · simp [int_from_request, h]
    · simpa [int_from_request, hs] using hsle
  have hneg : ¬ 0 < int_from_request req.GET "view_id" 0 := by omega
  refine ⟨?_, ?_, ?_⟩
  · simp only [get_prepared_queryset, if_neg hneg]
  · simp only [get_prepared_queryset, if_neg hneg]
    split
    · split <;> simp
    · simp
  · simp only [get_prepared_queryset, if_neg hneg]
    split
    · split <;> simp
    · simp

/-- C10 witness: a non-numeric view_id takes the inline path regardless
of the view store and raises neither view-related error. -/
theorem C10_malformed_view_id_witness :
    (lookupParam [("view_id", "abc")] "view_id" = none ∨
      ∃ s, lookupParam [("view_id", "abc")] "view_id" = some s ∧
        (parseDecInt s).getD 0 ≤ 0) ∧
    (get_prepared_queryset [⟨7, 2, none, [], ⟨true, some [], none⟩⟩]
        ⟨[("view_id", "abc")], ⟨none, none, none⟩⟩ 3 =
      get_prepared_queryset [] ⟨[("view_id", "abc")], ⟨none, none, none⟩⟩ 3 ∧
    get_prepared_queryset [⟨7, 2, none, [], ⟨true, some [], none⟩⟩]
        ⟨[("view_id", "abc")], ⟨none, none, none⟩⟩ 3 ≠
      Except.error DMError.notFound ∧
    get_prepared_queryset [⟨7, 2, none, [], ⟨true, some [], none⟩⟩]
        ⟨[("view_id", "abc")], ⟨none, none, none⟩⟩ 3 ≠
      Except.error DMError.viewProjectMismatch) :=
  ⟨Or.inr ⟨"abc", rfl, by decide⟩,
    C10_malformed_view_id [⟨7, 2, none, [], ⟨true, some [], none⟩⟩] []
      ⟨[("view_id", "abc")], ⟨none, none, none⟩⟩ 3
      (Or.inr ⟨"abc", rfl, by decide⟩)⟩

/-- C5 counterexample: two tasks from different projects (10 and 11) do
not make the trigger fail — it dispatches the full record set to the
backends of the first task's project, so there is no inconsistent-scope
check at all. -/
theorem C5_counterexample :
    evaluate_predictions
      [⟨1, ⟨10, [⟨100, false⟩]⟩⟩, ⟨2, ⟨11, [⟨200, false⟩]⟩⟩] =
      [⟨100, [1, 2], true⟩] ∧
    (⟨1, ⟨10, [⟨100, false⟩]⟩⟩ : LSTask).project ≠
      (⟨2, ⟨11, [⟨200, false⟩]⟩⟩ : LSTask).project := by
  exact ⟨by decide, by decide⟩

/-- C5 amended: the trigger is a no-op on an empty record set; on a
non-empty set it dispatches the full set to every backend registered for
the FIRST record's project, performing no consistency check across the
records' projects. -/
theorem C5_amended (tasks : List LSTask) :
    (tasks = [] → evaluate_predictions tasks = []) ∧
    (∀ t ts, tasks = t :: ts →
      evaluate_predictions tasks =
        t.project.ml_backends.map (fun mb => predict_many_tasks mb tasks)) := by
  constructor
  · rintro rfl
    rfl
  · rintro t ts rfl
    rfl

/-- C5 amended witness: one task, one backend — one dispatch event. -/
theorem C5_amended_witness :
    evaluate_predictions [⟨1, ⟨10, [⟨100, false⟩]⟩⟩] =
      (⟨1, ⟨10, [⟨100, false⟩]⟩⟩ : LSTask).project.ml_backends.map
        (fun mb => predict_many_tasks mb [⟨1, ⟨10, [⟨100, false⟩]⟩⟩]) :=
  (C5_amended [⟨1, ⟨10, [⟨100, false⟩]⟩⟩]).2 ⟨1, ⟨10, [⟨100, false⟩]⟩⟩ [] rfl

/-- C6: during dispatch every registered backend of the first record's
project is invoked exactly once with the full record set, in
registration order, and a failure reported by one backend (its ok flag
false) does not remove or change the dispatches to the others. -/
theorem C6_per_collaborator (t : LSTask) (ts : List LSTask) :
    (evaluate_predictions (t :: ts)).map (fun e => e.backend) =
      t.project.ml_backends.map (fun b => b.id) ∧
    (evaluate_predictions (t :: ts)).length =
      t.project.ml_backends.length ∧
    (∀ e ∈ evaluate_predictions (t :: ts),
      e.task_ids = (t :: ts).map LSTask.id) ∧
    (∀ mb ∈ t.project.ml_backends,
      predict_many_tasks mb (t :: ts) ∈ evaluate_predictions (t :: ts)) := by
  have he : evaluate_predictions (t :: ts) =
      t.project.ml_backends.map (fun mb => predict_many_tasks mb (t :: ts)) :=
    rfl
  refine ⟨?_, ?_, ?_, ?_⟩
  · rw [he, List.map_map]
    rfl
  · rw [he, List.length_map]
  · intro e hee
    rw [he] at hee
    obtain ⟨mb, _hmb, rfl⟩ := List.mem_map.mp hee
    rfl
  · intro mb hmb
    rw [he]
    exact List.mem_map_of_mem _ hmb

/-- C6 witness: with the first of two backends failing, both backends
still receive exactly one dispatch each, in registration order. -/
theorem C6_per_collaborator_witness :
    (evaluate_predictions
        [⟨1, ⟨10, [⟨100, true⟩, ⟨200, false⟩]⟩⟩]).map (fun e => e.backend) =
      (⟨1, ⟨10, [⟨100, true⟩, ⟨200, false⟩]⟩⟩ : LSTask).project.ml_backends.map
        (fun b => b.id) :=
  (C6_per_collaborator ⟨1, ⟨10, [⟨100, true⟩, ⟨200, false⟩]⟩⟩ []).1
